import Mathlib

/-!
Shallow embedding of the streaming coordination core of the ai-rewriter
browser extension, for checking the natural-language specification.

Embedded code:
* `src/src/content/content.ts` — the per-page UI agent (`ContentScript`).
* `src/unnamed/part_002` — the current background coordinator (the revision
  that owns the `activeStreams` map and handles `STREAM_CANCEL`; the older
  revision `src/src/background/background.ts` lacks both and is not the one
  the content script's `STREAM_CANCEL` messages can be handled by).
* `src/unnamed/part_007` — the `Message` type shared by both.

Modelling conventions:
* JavaScript string truthiness (`if (s)`) is `!s.isEmpty`; an optional field
  that is `undefined` is `none` and is falsy.
* The DOM elements created unconditionally in the `ContentScript`
  constructor (toast, overlay, card, content node, buttons) exist before any
  listener can run and are never nulled, so the `if (!this.suggestionCard)`
  style guards are vacuously passed and the elements are modelled as always
  present; their observable attributes (visibility, disabled flags, rendered
  text) are fields of `AgentState`.
* `requestAnimationFrame` scheduling is modelled by the boolean
  `flushScheduled` (`streamFlushRaf !== null`) plus an explicit frame event
  that invokes `flushPendingTokens` with `force = false`, exactly as the
  scheduled callback does.
* Messages sent with `chrome.runtime.sendMessage` are appended to the
  agent's `outbox`; messages sent with `chrome.tabs.sendMessage` are
  returned by the background operations as `(tabId, message)` pairs.
* The async `runRewrite` of part_002 is decomposed into its synchronous
  segments: `runRewriteStart` (the code up to and including the
  `STREAM_START` send), the three provider callbacks, `runRewriteSettle`
  (the post-await fallback that re-emits a STREAM_ERROR for an
  unsuccessful, unhandled response), `runRewriteCatch` (the catch block),
  and `runRewriteFinally` (the `finally` block deleting the tab's
  `activeStreams` entry).
* DOM reads (`window.getSelection()`, form-field selection) are passed in
  explicitly as a `DomCtx` value.
-/

/-- The `Message.type` union from `src/unnamed/part_007`. -/
inductive MsgType where
  | REWRITE_TEXT
  | REPLACE_TEXT
  | SHOW_ERROR
  | STREAM_START
  | STREAM_TOKEN
  | STREAM_END
  | STREAM_ERROR
  | STREAM_CANCEL
  | GET_SELECTED_TEXT
  | GET_LAST_SELECTION
  | REWRITE_SELECTED_TEXT
deriving DecidableEq, Repr

/-- The optional payload fields of `Message` (part_007); `none` models an
absent (`undefined`) field. -/
structure MsgPayload where
  text : Option String := none
  error : Option String := none
  selectedText : Option String := none
  token : Option String := none
deriving DecidableEq, Repr

/-- The `Message` interface from part_007. -/
structure Message where
  type : MsgType
  payload : MsgPayload := {}
deriving DecidableEq, Repr

/-- Executable model of JavaScript `String.prototype.trim`: removes leading
and trailing whitespace (kernel-reducible, unlike `String.trim` whose
well-founded recursion does not evaluate under `decide`). -/
def jsTrim (s : String) : String :=
  ⟨((s.data.dropWhile Char.isWhitespace).reverse.dropWhile Char.isWhitespace).reverse⟩

/-- JavaScript truthiness of an optional string field: `undefined` and the
empty string are falsy. -/
def truthyStr : Option String → Bool
  | none => false
  | some s => !s.isEmpty

/-- The DOM selection context read by the content script: the document
selection string (`window.getSelection()?.toString()`), and the substring
selected inside a focused input/textarea when `selectionStart !==
selectionEnd` (empty string when there is no such field selection). -/
structure DomCtx where
  docSelection : String := ""
  fieldSelection : String := ""
  activeIsContentEditable : Bool := false
deriving DecidableEq, Repr

/-- `ContentScript.getSelectedText`: prefer the trimmed document selection;
else the raw substring of a focused form field with a non-collapsed
selection; else, for a contentEditable active element, the trimmed document
selection again (necessarily empty at that point); else the empty string. -/
def getSelectedText (ctx : DomCtx) : String :=
  if !(jsTrim ctx.docSelection).isEmpty then (jsTrim ctx.docSelection)
  else if !ctx.fieldSelection.isEmpty then ctx.fieldSelection
  else if ctx.activeIsContentEditable then (jsTrim ctx.docSelection)
  else ""

/-- Observable state of the `ContentScript` page agent
(`src/src/content/content.ts`).  `contentText` is the text rendered in the
card's content element (cursor span excluded); `outbox` collects the
messages passed to `sendRuntimeMessage`, oldest first. -/
structure AgentState where
  isStreaming : Bool := false
  streamContent : String := ""
  rewrittenText : String := ""
  originalText : String := ""
  pendingTokens : String := ""
  flushScheduled : Bool := false
  streamTextNodePresent : Bool := false
  cursorShown : Bool := false
  contentText : String := ""
  cardVisible : Bool := false
  overlayVisible : Bool := false
  copyDisabled : Bool := false
  closeDisabled : Bool := false
  stopVisible : Bool := false
  stopDisabled : Bool := false
  toast : Option (String × Bool) := none
  selectionButtonVisible : Bool := false
  selectionText : String := ""
  pendingSelectionText : String := ""
  lastSelectionText : String := ""
  isSelectionButtonPressed : Bool := false
  outbox : List Message := []
deriving DecidableEq, Repr

/-- `ContentScript.hideSelectionButton`. -/
def hideSelectionButton (st : AgentState) : AgentState :=
  { st with selectionButtonVisible := false
            selectionText := ""
            pendingSelectionText := ""
            isSelectionButtonPressed := false }

/-- The warning text shown when a rewrite is triggered while one is
already streaming. -/
def busyWarning : String :=
  "Stop the current rewrite before starting a new one."

/-- `ContentScript.showToast`: records the toast message and error flag
(the timed auto-dismiss is not modelled). -/
def showToast (message : String) (isError : Bool) (st : AgentState) :
    AgentState :=
  { st with toast := some (message, isError) }

/-- `ContentScript.setStreamingState`. -/
def setStreamingState (isStreaming : Bool) (st : AgentState) : AgentState :=
  { st with copyDisabled := isStreaming
            closeDisabled := isStreaming
            stopVisible := isStreaming
            stopDisabled := false }

/-- `ContentScript.cancelStreaming`: no-op unless streaming; otherwise
disables the Stop control and sends `STREAM_CANCEL`. -/
def cancelStreaming (st : AgentState) : AgentState :=
  if !st.isStreaming then st
  else
    { st with stopDisabled := true
              outbox := st.outbox ++ [⟨.STREAM_CANCEL, {}⟩] }

/-- `ContentScript.showSuggestionCard`: stores the text, captures the raw
document selection as `originalText`, renders the text, shows overlay and
card when the overlay is not already shown, and hides the selection
button. -/
def showSuggestionCard (text : String) (ctx : DomCtx) (st : AgentState) :
    AgentState :=
  let st := { st with rewrittenText := text
                      originalText := ctx.docSelection
                      contentText := text }
  let st :=
    if st.overlayVisible then st
    else { st with overlayVisible := true, cardVisible := true }
  hideSelectionButton st

/-- `ContentScript.startStreaming`: enters Streaming, clears the stream
accumulator and pending buffer, cancels any scheduled flush, shows the
(empty) card, switches the controls to the streaming configuration, and
installs the stream text node and blinking cursor. -/
def startStreaming (ctx : DomCtx) (st : AgentState) : AgentState :=
  let st := { st with isStreaming := true
                      streamContent := ""
                      pendingTokens := ""
                      flushScheduled := false }
  let st := showSuggestionCard "" ctx st
  let st := setStreamingState true st
  { st with contentText := ""
            streamTextNodePresent := true
            cursorShown := true }

/-- `ContentScript.appendStreamToken`: dropped unless streaming; otherwise
appends to the pending buffer and schedules a flush when none is
scheduled. -/
def appendStreamToken (token : String) (st : AgentState) : AgentState :=
  if !st.isStreaming then st
  else
    let st := { st with pendingTokens := st.pendingTokens ++ token }
    if !st.flushScheduled then { st with flushScheduled := true } else st

/-- `ContentScript.flushPendingTokens`. -/
def flushPendingTokens (force : Bool) (st : AgentState) : AgentState :=
  if !st.isStreaming && !force then st
  else if st.pendingTokens.isEmpty then { st with flushScheduled := false }
  else
    let st :=
      if !st.streamTextNodePresent then { st with streamTextNodePresent := true }
      else st
    let newContent := st.streamContent ++ st.pendingTokens
    { st with streamContent := newContent
              contentText := st.contentText ++ st.pendingTokens
              pendingTokens := ""
              rewrittenText := newContent
              flushScheduled := false }

/-- `ContentScript.endStreaming`: force-flushes the pending buffer, leaves
Streaming, restores the idle control configuration, removes the cursor. -/
def endStreaming (st : AgentState) : AgentState :=
  let st := flushPendingTokens true st
  let st := { st with isStreaming := false }
  let st := setStreamingState false st
  { st with cursorShown := false }

/-- `ContentScript.hideSuggestionCard`: while streaming, defers to
`cancelStreaming` and does not close anything; otherwise hides card and
overlay. -/
def hideSuggestionCard (st : AgentState) : AgentState :=
  if st.isStreaming then cancelStreaming st
  else { st with cardVisible := false, overlayVisible := false }

/-- The document `keydown` listener installed by
`ContentScript.initializeDismissListeners`, specialised to the Escape key:
acts only while the suggestion card is displayed. -/
def escapeKeyDown (st : AgentState) : AgentState :=
  if st.cardVisible then hideSuggestionCard st else st

/-- The overlay `click` listener installed by `ContentScript.createOverlay`. -/
def overlayClick (st : AgentState) : AgentState :=
  hideSuggestionCard st

/-- `ContentScript.updateLastSelection`: overwrites `lastSelectionText`
only with a non-empty trimmed selection. -/
def updateLastSelection (selectedText : String) (st : AgentState) :
    AgentState :=
  if !(jsTrim selectedText).isEmpty then
    { st with lastSelectionText := jsTrim selectedText }
  else st

/-- The selection button `click` listener installed by
`ContentScript.createSelectionButton`: while streaming, shows a warning
toast and returns; otherwise resolves the text to rewrite, and either
hides the button (empty text) or sends `REWRITE_SELECTED_TEXT`. -/
def clickSelectionButton (ctx : DomCtx) (st : AgentState) : AgentState :=
  if st.isStreaming then
    showToast busyWarning true st
  else
    let text :=
      if !(jsTrim st.pendingSelectionText).isEmpty then jsTrim st.pendingSelectionText
      else if !(jsTrim (getSelectedText ctx)).isEmpty then jsTrim (getSelectedText ctx)
      else jsTrim st.selectionText
    if text.isEmpty then
      let st := hideSelectionButton st
      { st with isSelectionButtonPressed := false }
    else
      let st :=
        { st with outbox := st.outbox ++ [Message.mk .REWRITE_SELECTED_TEXT { text := some text }] }
      let st := { st with pendingSelectionText := "" }
      let st := hideSelectionButton st
      { st with isSelectionButtonPressed := false }

/-- The `chrome.runtime.onMessage` listener installed by
`ContentScript.initializeMessageListener`; the second component is the
`sendResponse` payload (`selectedText`) for the two query messages. -/
def agentOnMessage (msg : Message) (ctx : DomCtx) (st : AgentState) :
    AgentState × Option String :=
  match msg.type with
  | .GET_SELECTED_TEXT => (st, some (getSelectedText ctx))
  | .GET_LAST_SELECTION =>
      (st, some (if st.lastSelectionText.isEmpty then getSelectedText ctx
                 else st.lastSelectionText))
  | .REWRITE_TEXT =>
      (if truthyStr msg.payload.text then
         showSuggestionCard (msg.payload.text.getD "") ctx st
       else st, none)
  | .STREAM_START => (startStreaming ctx st, none)
  | .STREAM_TOKEN =>
      (if truthyStr msg.payload.token then
         appendStreamToken (msg.payload.token.getD "") st
       else st, none)
  | .STREAM_END => (endStreaming st, none)
  | .STREAM_ERROR =>
      (if truthyStr msg.payload.error then
         hideSuggestionCard
           (showToast (msg.payload.error.getD "") true (endStreaming st))
       else st, none)
  | .SHOW_ERROR =>
      (if truthyStr msg.payload.error then
         hideSuggestionCard
           (showToast (msg.payload.error.getD "") true (endStreaming st))
       else st, none)
  | _ => (st, none)

/-- State of the background coordinator (`src/unnamed/part_002`):
`streams tab` is the `activeStreams` map entry for `tab` (`some c` is an
entry object with `cancelled = c`, `none` is no entry); `abortSignalled`
records that `AIService.cancelStream()` has been invoked. -/
structure BgState where
  streams : Nat → Option Bool
  abortSignalled : Bool := false

/-- The initial background state: an empty `activeStreams` map. -/
def bgInit : BgState :=
  { streams := fun _ => none }

/-- Truthiness of `activeStreams.get(tabId)?.cancelled`: `undefined` when
there is no entry, hence falsy. -/
def cancelledFlag (st : BgState) (tabId : Nat) : Bool :=
  (st.streams tabId).getD false

/-- The synchronous prefix of `runRewrite` (part_002, up to the first
`await`): installs a fresh `{ cancelled: false }` entry for the tab and
sends `STREAM_START` to it. -/
def runRewriteStart (tabId : Nat) (st : BgState) :
    BgState × List (Nat × Message) :=
  ({ st with streams := fun t => if t = tabId then some false else st.streams t },
   [(tabId, ⟨.STREAM_START, {}⟩)])

/-- The `onToken` callback of `runRewrite`: suppressed when the current
entry for the tab is cancelled, else forwards the token. -/
def runRewriteOnToken (tabId : Nat) (token : String) (st : BgState) :
    List (Nat × Message) :=
  if cancelledFlag st tabId then []
  else [(tabId, ⟨.STREAM_TOKEN, { token := some token }⟩)]

/-- The `onComplete` callback of `runRewrite`: suppressed when cancelled,
else sends `STREAM_END`. -/
def runRewriteOnComplete (tabId : Nat) (st : BgState) :
    List (Nat × Message) :=
  if cancelledFlag st tabId then []
  else [(tabId, ⟨.STREAM_END, {}⟩)]

/-- The `onError` callback of `runRewrite`: suppressed when the current
entry for the tab is cancelled, else sends `STREAM_ERROR` with the
message. -/
def runRewriteOnError (tabId : Nat) (error : String) (st : BgState) :
    List (Nat × Message) :=
  if cancelledFlag st tabId then []
  else [(tabId, ⟨.STREAM_ERROR, { error := some error }⟩)]

/-- The `AIResponse` interface from part_007, as settled by
`AIService.rewriteText`; `none` models an absent (`undefined`) optional
field. -/
structure AIResponse where
  success : Bool
  content : String := ""
  error : Option String := none
  isStreaming : Option Bool := none
  errorHandled : Option Bool := none
deriving DecidableEq, Repr

/-- The post-await fallback of `runRewrite` (part_002 lines 90-97): when
the settled response is unsuccessful, the `onError` callback has not
already emitted a STREAM_ERROR (`streamErrorEmitted`, which stays false
when `onError` returned early because of cancellation), and the response
carries no truthy `errorHandled`, a STREAM_ERROR with `response.error ||
'Failed to rewrite text'` is sent — without consulting the cancelled
flag. -/
def runRewriteSettle (tabId : Nat) (response : AIResponse)
    (streamErrorEmitted : Bool) : List (Nat × Message) :=
  let errMsg := if truthyStr response.error then response.error.getD ""
                else "Failed to rewrite text"
  if !response.success && !streamErrorEmitted && !(response.errorHandled.getD false) then
    [(tabId, ⟨.STREAM_ERROR, { error := some errMsg }⟩)]
  else []

/-- The catch block of `runRewrite` (part_002 lines 98-105): unless the
`onError` callback already emitted a STREAM_ERROR, an exception settles as
a STREAM_ERROR — again without consulting the cancelled flag. -/
def runRewriteCatch (tabId : Nat) (streamErrorEmitted : Bool) :
    List (Nat × Message) :=
  if streamErrorEmitted then []
  else [(tabId, ⟨.STREAM_ERROR, { error := some "Failed to rewrite text. Please try again." }⟩)]

/-- The `finally` block of `runRewrite`: deletes the tab's `activeStreams`
entry. -/
def runRewriteFinally (tabId : Nat) (st : BgState) : BgState :=
  { st with streams := fun t => if t = tabId then none else st.streams t }

/-- The `STREAM_CANCEL` branch of the background `chrome.runtime.onMessage`
listener: marks the current entry cancelled when one exists, aborts the
provider, and sends `STREAM_END` unconditionally. -/
def handleStreamCancel (tabId : Nat) (st : BgState) :
    BgState × List (Nat × Message) :=
  let st :=
    match st.streams tabId with
    | some _ =>
        { st with streams := fun t => if t = tabId then some true else st.streams t }
    | none => st
  let st := { st with abortSignalled := true }
  (st, [(tabId, ⟨.STREAM_END, {}⟩)])

/-- The background `chrome.runtime.onMessage` listener (part_002):
dispatches `STREAM_CANCEL` and `REWRITE_SELECTED_TEXT` from a sender tab;
a `REWRITE_SELECTED_TEXT` with falsy `payload.text` is dropped, otherwise
`runRewrite` is started (its synchronous prefix is modelled). -/
def bgOnRuntimeMessage (msg : Message) (senderTab : Option Nat)
    (st : BgState) : BgState × List (Nat × Message) :=
  match senderTab with
  | none => (st, [])
  | some tabId =>
      if msg.type = .STREAM_CANCEL then handleStreamCancel tabId st
      else if msg.type ≠ .REWRITE_SELECTED_TEXT then (st, [])
      else if !truthyStr msg.payload.text then (st, [])
      else runRewriteStart tabId st

/-- Text resolution of the context-menu click handler (part_002):
`info.selectionText || ''`, then — only when that is empty — the trimmed
`GET_SELECTED_TEXT` response, then the trimmed `GET_LAST_SELECTION`
response (each response modelled as the optional `selectedText` field the
page agent answered with). -/
def contextMenuResolveText (infoSelectionText : String)
    (getSelectedResp lastSelectionResp : Option String) : String :=
  let selectedText := infoSelectionText
  let selectedText :=
    if selectedText.isEmpty then jsTrim (getSelectedResp.getD "")
    else selectedText
  let selectedText :=
    if selectedText.isEmpty then jsTrim (lastSelectionResp.getD "")
    else selectedText
  selectedText

/-- The `chrome.contextMenus.onClicked` listener (part_002):
when a known menu item was clicked on a tab, resolves the selected text
and, when it is non-empty, runs `runRewrite` (synchronous prefix
modelled). -/
def contextMenuClicked (menuItemMatched : Bool) (tabId : Option Nat)
    (infoSelectionText : String)
    (getSelectedResp lastSelectionResp : Option String) (st : BgState) :
    BgState × List (Nat × Message) :=
  match menuItemMatched, tabId with
  | true, some tab =>
      let selectedText :=
        contextMenuResolveText infoSelectionText getSelectedResp lastSelectionResp
      if selectedText.isEmpty then (st, [])
      else runRewriteStart tab st
  | _, _ => (st, [])

/-- Delivery of a batch of tab-addressed messages to one page agent on the
given tab: each message is processed by the agent's runtime listener in
order; messages for other tabs are not delivered to it. -/
def deliverToAgent (tab : Nat) (ctx : DomCtx) (msgs : List (Nat × Message))
    (st : AgentState) : AgentState :=
  msgs.foldl (fun a m => if m.1 = tab then (agentOnMessage m.2 ctx a).1 else a) st

/-- One event of the streaming phase as seen by the page agent: a
`STREAM_TOKEN` message handled by the runtime listener, or the firing of a
scheduled animation frame, whose callback runs `flushPendingTokens` with
`force = false`. -/
inductive StreamEvent where
  | tok (s : String)
  | frame
deriving DecidableEq, Repr

/-- Apply one streaming-phase event to the agent. -/
def agentStreamStep (ctx : DomCtx) (st : AgentState) : StreamEvent → AgentState
  | .tok s => (agentOnMessage ⟨.STREAM_TOKEN, { token := some s }⟩ ctx st).1
  | .frame => flushPendingTokens false st

/-- The token payloads of a streaming trace, in emission order. -/
def tokenPayloads : List StreamEvent → List String
  | [] => []
  | .tok s :: es => s :: tokenPayloads es
  | .frame :: es => tokenPayloads es

/-- Concatenation of a list of strings in order. -/
def concatStr : List String → String
  | [] => ""
  | s :: rest => s ++ concatStr rest

/-- Invariant maintained by the agent during the streaming phase: it is
Streaming, the stored rewritten text and the rendered text both equal the
flushed accumulator, and accumulator plus pending buffer equal the
concatenation `acc` of every token received so far. -/
def StreamInv (st : AgentState) (acc : String) : Prop :=
  st.isStreaming = true ∧
  st.rewrittenText = st.streamContent ∧
  st.contentText = st.streamContent ∧
  st.streamContent ++ st.pendingTokens = acc

lemma startStreaming_inv (ctx : DomCtx) (st : AgentState) :
    StreamInv (startStreaming ctx st) "" := by
  by_cases hov : st.overlayVisible <;>
    simp [StreamInv, startStreaming, showSuggestionCard, setStreamingState,
      hideSelectionButton, hov]

lemma empty_isEmpty : ("" : String).isEmpty = true := rfl

lemma streamInv_tok (ctx : DomCtx) (st : AgentState) (acc s : String)
    (h : StreamInv st acc) :
    StreamInv (agentStreamStep ctx st (.tok s)) (acc ++ s) := by
  obtain ⟨h1, h2, h3, h4⟩ := h
  by_cases hs : s.isEmpty
  · have hs' : s = "" := (String.isEmpty_iff s).mp hs
    subst hs'
    simp [StreamInv, agentStreamStep, agentOnMessage, appendStreamToken, truthyStr,
      empty_isEmpty, h1, h2, h3, h4, String.append_empty]
  · by_cases hf : st.flushScheduled <;>
      simp [StreamInv, agentStreamStep, agentOnMessage, appendStreamToken, truthyStr,
        h1, h2, h3, ← h4, hs, hf, String.append_assoc]

lemma streamInv_frame (st : AgentState) (acc : String) (h : StreamInv st acc) :
    StreamInv (flushPendingTokens false st) acc := by
  obtain ⟨h1, h2, h3, h4⟩ := h
  by_cases hp : st.pendingTokens.isEmpty
  · have hp' : st.pendingTokens = "" := (String.isEmpty_iff _).mp hp
    rw [hp', String.append_empty] at h4
    simp [StreamInv, flushPendingTokens, empty_isEmpty, h1, h2, h3, h4, hp, hp']
  · by_cases hn : st.streamTextNodePresent <;>
      simp [StreamInv, flushPendingTokens, h1, h2, h3, ← h4, hp, hn, String.append_empty]

lemma streamInv_fold (ctx : DomCtx) :
    ∀ (evs : List StreamEvent) (st : AgentState) (acc : String),
      StreamInv st acc →
      StreamInv (List.foldl (agentStreamStep ctx) st evs)
        (acc ++ concatStr (tokenPayloads evs)) := by
  intro evs
  induction evs with
  | nil => intro st acc h; simpa [concatStr, tokenPayloads, String.append_empty] using h
  | cons e rest ih =>
      intro st acc h
      cases e with
      | tok s =>
          have h' := streamInv_tok ctx st acc s h
          have := ih (agentStreamStep ctx st (.tok s)) (acc ++ s) h'
          simpa [tokenPayloads, concatStr, List.foldl, String.append_assoc] using this
      | frame =>
          have h' := streamInv_frame st acc h
          have := ih (agentStreamStep ctx st .frame) acc h'
          simpa [tokenPayloads, concatStr, List.foldl, agentStreamStep] using this

lemma endStreaming_of_inv (st : AgentState) (acc : String) (h : StreamInv st acc) :
    (endStreaming st).streamContent = acc ∧
    (endStreaming st).rewrittenText = acc ∧
    (endStreaming st).contentText = acc ∧
    (endStreaming st).pendingTokens = "" ∧
    (endStreaming st).isStreaming = false := by
  obtain ⟨h1, h2, h3, h4⟩ := h
  by_cases hp : st.pendingTokens.isEmpty
  · have hp' : st.pendingTokens = "" := (String.isEmpty_iff _).mp hp
    rw [hp', String.append_empty] at h4
    simp [endStreaming, flushPendingTokens, setStreamingState, empty_isEmpty, h1, h2, h3, h4,
      hp, hp']
  · by_cases hn : st.streamTextNodePresent <;>
      simp [endStreaming, flushPendingTokens, setStreamingState, h1, h2, h3, ← h4, hp, hn,
        String.append_empty]

/-- C2: for every finite sequence of STREAM_TOKEN events and animation-frame
flushes delivered while Streaming, followed by STREAM_END, the final text —
`streamContent`, `rewrittenText`, and the rendered `contentText` alike —
equals the concatenation of all token payloads in emission order, the
pending buffer is empty (flushed synchronously inside `endStreaming` before
the Streaming state is cleared), and the agent has left Streaming. -/
theorem c2_stream_end_renders_token_concatenation
    (evs : List StreamEvent) (ctx : DomCtx) (st0 : AgentState) :
    ((agentOnMessage ⟨.STREAM_END, {}⟩ ctx
        (List.foldl (agentStreamStep ctx)
          ((agentOnMessage ⟨.STREAM_START, {}⟩ ctx st0).1) evs)).1).streamContent
        = concatStr (tokenPayloads evs) ∧
    ((agentOnMessage ⟨.STREAM_END, {}⟩ ctx
        (List.foldl (agentStreamStep ctx)
          ((agentOnMessage ⟨.STREAM_START, {}⟩ ctx st0).1) evs)).1).rewrittenText
        = concatStr (tokenPayloads evs) ∧
    ((agentOnMessage ⟨.STREAM_END, {}⟩ ctx
        (List.foldl (agentStreamStep ctx)
          ((agentOnMessage ⟨.STREAM_START, {}⟩ ctx st0).1) evs)).1).contentText
        = concatStr (tokenPayloads evs) ∧
    ((agentOnMessage ⟨.STREAM_END, {}⟩ ctx
        (List.foldl (agentStreamStep ctx)
          ((agentOnMessage ⟨.STREAM_START, {}⟩ ctx st0).1) evs)).1).pendingTokens = "" ∧
    ((agentOnMessage ⟨.STREAM_END, {}⟩ ctx
        (List.foldl (agentStreamStep ctx)
          ((agentOnMessage ⟨.STREAM_START, {}⟩ ctx st0).1) evs)).1).isStreaming = false := by
  have h0 : StreamInv ((agentOnMessage ⟨.STREAM_START, {}⟩ ctx st0).1) "" := by
    simpa [agentOnMessage] using startStreaming_inv ctx st0
  have hfold := streamInv_fold ctx evs _ "" h0
  rw [String.empty_append] at hfold
  have hend := endStreaming_of_inv _ _ hfold
  simpa [agentOnMessage] using hend

/-- The most recent element of the list whose JS-trim is non-empty (in
trimmed form), with `acc` as the value when there is none: this is what the
sequence of `updateLastSelection` calls leaves in `lastSelectionText`. -/
def lastNonempty : List String → String → String
  | [], acc => acc
  | t :: ts, acc => lastNonempty ts (if (jsTrim t).isEmpty then acc else jsTrim t)

lemma foldl_updateLastSelection (seq : List String) :
    ∀ st : AgentState,
      (seq.foldl (fun st t => updateLastSelection t st) st).lastSelectionText =
        lastNonempty seq st.lastSelectionText := by
  induction seq with
  | nil => intro st; rfl
  | cons t ts ih =>
      intro st
      rw [List.foldl_cons, ih, lastNonempty]
      congr 1
      by_cases ht : (jsTrim t).isEmpty <;> simp [updateLastSelection, ht]

lemma lastNonempty_append (xs ys : List String) :
    ∀ acc, lastNonempty (xs ++ ys) acc = lastNonempty ys (lastNonempty xs acc) := by
  induction xs with
  | nil => intro acc; rfl
  | cons x xs ih => intro acc; simp [lastNonempty, ih]

lemma lastNonempty_nonempty (seq : List String) :
    ∀ acc : String,
      (acc.isEmpty = false ∨ ∃ t ∈ seq, (jsTrim t).isEmpty = false) →
      (lastNonempty seq acc).isEmpty = false := by
  induction seq with
  | nil =>
      intro acc h
      rcases h with h | ⟨t, ht, _⟩
      · exact h
      · cases ht
  | cons t ts ih =>
      intro acc h
      by_cases htr : (jsTrim t).isEmpty
      · rw [lastNonempty, if_pos htr]
        apply ih
        rcases h with h | ⟨u, hu, hune⟩
        · exact Or.inl h
        · rcases List.mem_cons.mp hu with rfl | hu'
          · rw [hune] at htr; cases htr
          · exact Or.inr ⟨u, hu', hune⟩
      · rw [lastNonempty, if_neg htr]
        apply ih
        exact Or.inl (by simpa using htr)

/-- C8: after any sequence of selection captures ending in an empty or
whitespace-only selection, provided some captured selection had non-empty
trim, a GET_LAST_SELECTION query answers with the most recently captured
non-empty trimmed selection text — never the empty string — whatever the
current DOM selection is. -/
theorem c8_last_selection_retained (pre : List String) (tEnd : String)
    (st0 : AgentState) (ctx : DomCtx)
    (hinit : st0.lastSelectionText = "")
    (hEnd : (jsTrim tEnd).isEmpty = true)
    (hsome : ∃ t ∈ pre, (jsTrim t).isEmpty = false) :
    (agentOnMessage ⟨.GET_LAST_SELECTION, {}⟩ ctx
        ((pre ++ [tEnd]).foldl (fun st t => updateLastSelection t st) st0)).2
      = some (lastNonempty pre "") ∧
    (lastNonempty pre "").isEmpty = false := by
  have hne : (lastNonempty pre "").isEmpty = false :=
    lastNonempty_nonempty pre "" (Or.inr hsome)
  have hfold := foldl_updateLastSelection (pre ++ [tEnd]) st0
  rw [hinit, lastNonempty_append pre [tEnd] "",
    lastNonempty, if_pos hEnd, lastNonempty] at hfold
  refine ⟨?_, hne⟩
  show some (if (List.foldl (fun st t => updateLastSelection t st) st0
        (pre ++ [tEnd])).lastSelectionText.isEmpty = true then getSelectedText ctx
      else (List.foldl (fun st t => updateLastSelection t st) st0
        (pre ++ [tEnd])).lastSelectionText) = some (lastNonempty pre "")
  rw [hfold, hne]
  simp

/-- Witness for C8 at the concrete capture sequence
["hello world", "   "]. -/
theorem c8_last_selection_retained_witness :
    (({} : AgentState).lastSelectionText = "" ∧
     (jsTrim "   ").isEmpty = true ∧
     ∃ t ∈ ["hello world"], (jsTrim t).isEmpty = false) ∧
    ((agentOnMessage ⟨.GET_LAST_SELECTION, {}⟩ {}
        ((["hello world"] ++ ["   "]).foldl
          (fun st t => updateLastSelection t st) ({} : AgentState))).2
      = some (lastNonempty ["hello world"] "") ∧
    (lastNonempty ["hello world"] "").isEmpty = false) :=
  ⟨⟨rfl, by decide, by decide⟩,
   c8_last_selection_retained ["hello world"] "   " {} {} rfl (by decide) (by decide)⟩

/-- A concrete reachable agent state: STREAM_START processed on a fresh
page, one token "Hi" received and flushed; the agent is Streaming and
shows "Hi". -/
def agStreamingHi : AgentState :=
  flushPendingTokens false
    ((agentOnMessage ⟨.STREAM_TOKEN, { token := some "Hi" }⟩ {}
      ((agentOnMessage ⟨.STREAM_START, {}⟩ {} ({} : AgentState)).1)).1)

/-- A concrete background state with an active, uncancelled stream on
tab 1 (as left by the synchronous prefix of `runRewrite`). -/
def bgActive1 : BgState := (runRewriteStart 1 bgInit).1

/-- A concrete background state for tab 1 whose stream has been cancelled
via the STREAM_CANCEL handler. -/
def bgCancelled1 : BgState := (handleStreamCancel 1 bgActive1).1

/-- C1 counterexample: with the page agent Streaming (showing "Hi") and an
active uncancelled session on tab 1, a context-menu rewrite click is not
rejected: the background sends STREAM_START for a second session, and the
agent's `startStreaming` on receiving it resets the existing session's
`streamContent` from "Hi" to "". -/
theorem c1_second_rewrite_not_rejected_counterexample :
    agStreamingHi.isStreaming = true ∧
    agStreamingHi.streamContent = "Hi" ∧
    bgActive1.streams 1 = some false ∧
    (contextMenuClicked true (some 1) "Make it shorter" none none bgActive1).2 =
      [(1, ⟨.STREAM_START, {}⟩)] ∧
    ((agentOnMessage ⟨.STREAM_START, {}⟩ {} agStreamingHi).1).streamContent = "" :=
  ⟨rfl, by decide, rfl, by decide, by decide⟩

/-- C1 (amended): at the page agent's selection-button path, a rewrite
click while Streaming is rejected with the visible warning toast only — no
runtime message is sent and the session state (isStreaming, streamContent,
pendingTokens) is unchanged; the context-menu path handled by the
background performs no such check: whenever the clicked menu item matches
and `info.selectionText` is non-empty it sends STREAM_START for a second
session regardless of any active stream. -/
theorem c1_streaming_click_rejected_on_agent_path (st : AgentState)
    (ctx : DomCtx) (h : st.isStreaming = true) :
    clickSelectionButton ctx st =
      { st with toast := some (busyWarning, true) } ∧
    (clickSelectionButton ctx st).isStreaming = st.isStreaming ∧
    (clickSelectionButton ctx st).streamContent = st.streamContent ∧
    (clickSelectionButton ctx st).pendingTokens = st.pendingTokens ∧
    (clickSelectionButton ctx st).outbox = st.outbox ∧
    (∀ (bg : BgState) (tab : Nat) (infoSel : String) (r1 r2 : Option String),
      infoSel.isEmpty = false →
      (contextMenuClicked true (some tab) infoSel r1 r2 bg).2 =
        [(tab, ⟨.STREAM_START, {}⟩)]) := by
  have hclick : clickSelectionButton ctx st =
      { st with toast := some (busyWarning, true) } := by
    simp [clickSelectionButton, showToast, h]
  refine ⟨hclick, ?_, ?_, ?_, ?_, ?_⟩
  · rw [hclick]
  · rw [hclick]
  · rw [hclick]
  · rw [hclick]
  · intro bg tab infoSel r1 r2 hinfo
    simp [contextMenuClicked, contextMenuResolveText, runRewriteStart, hinfo]

/-- Witness for C1's amended theorem at the concrete streaming state
`agStreamingHi`. -/
theorem c1_streaming_click_rejected_on_agent_path_witness :
    agStreamingHi.isStreaming = true ∧
    clickSelectionButton {} agStreamingHi =
      { agStreamingHi with toast := some (busyWarning, true) } :=
  ⟨rfl, (c1_streaming_click_rejected_on_agent_path agStreamingHi {} rfl).1⟩

/-- C3 counterexample: with the session on tab 1 already cancelled, a
provider error that settles `rewriteText` outside the streaming callbacks
— `success = false` with `errorHandled` absent, the shape produced by a
connection-phase abort of the OpenRouter call or by the Gemini outer
catch, `onError` never invoked so `streamErrorEmitted = false` — is
re-emitted by `runRewrite`'s post-await fallback as STREAM_ERROR without
consulting the cancelled flag, and the page agent receiving it shows an
error toast; the catch block likewise emits STREAM_ERROR whenever no
STREAM_ERROR was emitted before, cancelled or not. -/
theorem c3_late_error_reaches_agent_counterexample :
    bgCancelled1.streams 1 = some true ∧
    runRewriteSettle 1 ⟨false, "", some "Request was aborted.", none, none⟩ false =
      [(1, ⟨.STREAM_ERROR, { error := some "Request was aborted." }⟩)] ∧
    ((agentOnMessage ⟨.STREAM_ERROR, { error := some "Request was aborted." }⟩ {}
        (endStreaming agStreamingHi)).1).toast = some ("Request was aborted.", true) ∧
    runRewriteCatch 1 false =
      [(1, ⟨.STREAM_ERROR, { error := some "Failed to rewrite text. Please try again." }⟩)] :=
  ⟨rfl, by decide, by decide, by decide⟩

/-- C3 (amended): a provider error delivered through the streaming
`onError` callback after STREAM_CANCEL is fully suppressed: the callback
checks the per-tab cancelled flag and emits nothing — so no message
reaches the agent and its state, toast included, is unchanged — and the
`errorHandled = true` response this path settles with keeps the
post-await fallback silent as well; errors that settle outside the
streaming callbacks are re-emitted regardless of cancellation (see the
counterexample). -/
theorem c3_error_after_cancel_suppressed (bg : BgState) (tabId : Nat)
    (err : String) (ag : AgentState) (ctx : DomCtx) (response : AIResponse)
    (h : bg.streams tabId = some true)
    (hhandled : response.errorHandled.getD false = true) :
    runRewriteOnError tabId err bg = [] ∧
    runRewriteSettle tabId response false = [] ∧
    deliverToAgent tabId ctx (runRewriteOnError tabId err bg) ag = ag := by
  have hc : cancelledFlag bg tabId = true := by simp [cancelledFlag, h]
  refine ⟨?_, ?_, ?_⟩
  · simp [runRewriteOnError, hc]
  · simp [runRewriteSettle, hhandled]
  · simp [deliverToAgent, runRewriteOnError, hc]

/-- Witness for C3's amended theorem at the concrete cancelled session on
tab 1 with an inner-streaming-error response shape (errorHandled true). -/
theorem c3_error_after_cancel_suppressed_witness :
    (bgCancelled1.streams 1 = some true ∧
     ((⟨false, "", some "boom", some true, some true⟩ : AIResponse).errorHandled.getD false
        = true)) ∧
    runRewriteOnError 1 "boom" bgCancelled1 = [] ∧
    runRewriteSettle 1 ⟨false, "", some "boom", some true, some true⟩ false = [] :=
  ⟨⟨rfl, rfl⟩,
   (c3_error_after_cancel_suppressed bgCancelled1 1 "boom" ({} : AgentState) {}
     ⟨false, "", some "boom", some true, some true⟩ rfl rfl).1,
   (c3_error_after_cancel_suppressed bgCancelled1 1 "boom" ({} : AgentState) {}
     ⟨false, "", some "boom", some true, some true⟩ rfl rfl).2.1⟩

/-- C4 counterexample: the background STREAM_CANCEL handler emits
STREAM_END unconditionally, so (a) the agent issuing cancel twice in
succession while the first STREAM_END has not yet arrived sends two
STREAM_CANCEL messages, (b) the coordinator answers each of the two cancel
messages for the same streaming session with its own STREAM_END — two in
total, not exactly one — and (c) a STREAM_CANCEL arriving when no session
is active still emits a STREAM_END instead of being a no-op. -/
theorem c4_cancel_counterexample :
    (cancelStreaming (cancelStreaming agStreamingHi)).outbox =
      [⟨.STREAM_CANCEL, {}⟩, ⟨.STREAM_CANCEL, {}⟩] ∧
    (bgOnRuntimeMessage ⟨.STREAM_CANCEL, {}⟩ (some 1) bgActive1).2 =
      [(1, ⟨.STREAM_END, {}⟩)] ∧
    (bgOnRuntimeMessage ⟨.STREAM_CANCEL, {}⟩ (some 1)
        ((bgOnRuntimeMessage ⟨.STREAM_CANCEL, {}⟩ (some 1) bgActive1).1)).2 =
      [(1, ⟨.STREAM_END, {}⟩)] ∧
    (bgOnRuntimeMessage ⟨.STREAM_CANCEL, {}⟩ (some 1) bgInit).2 =
      [(1, ⟨.STREAM_END, {}⟩)] :=
  ⟨by decide, rfl, rfl, rfl⟩

/-- C4 (amended): idempotence holds at the agent, not in the coordinator's
STREAM_END emission: the agent's `cancelStreaming` when no stream is active
is a no-op (sends nothing, changes nothing), and a redundant STREAM_END is
observably inert (`endStreaming` is idempotent); but the coordinator's
STREAM_CANCEL handler emits exactly one STREAM_END for every cancel
message it processes, active session or not, so two cancels in succession
deliver two STREAM_END events (each beyond the first changing nothing). -/
theorem c4_cancel_idempotent_in_effect (st st2 : AgentState) (bg : BgState)
    (tab : Nat) (h : st.isStreaming = false) :
    cancelStreaming st = st ∧
    endStreaming (endStreaming st2) = endStreaming st2 ∧
    (handleStreamCancel tab bg).2 = [(tab, ⟨.STREAM_END, {}⟩)] := by
  refine ⟨by simp [cancelStreaming, h], ?_, rfl⟩
  by_cases hp : st2.pendingTokens.isEmpty
  · by_cases hn : st2.streamTextNodePresent <;>
      simp [endStreaming, flushPendingTokens, setStreamingState, hp, hn, empty_isEmpty]
  · by_cases hn : st2.streamTextNodePresent <;>
      simp [endStreaming, flushPendingTokens, setStreamingState, hp, hn, empty_isEmpty]

/-- Witness for C4's amended theorem: after the stream on the concrete
state has ended, a further cancel is a no-op. -/
theorem c4_cancel_idempotent_in_effect_witness :
    (endStreaming agStreamingHi).isStreaming = false ∧
    cancelStreaming (endStreaming agStreamingHi) = endStreaming agStreamingHi :=
  ⟨rfl, (c4_cancel_idempotent_in_effect (endStreaming agStreamingHi)
    agStreamingHi bgInit 1 rfl).1⟩

/-- C5 counterexample: the background validation checks JS falsiness, not
trimmed emptiness, so a whitespace-only text " " — empty after trimming —
passes it on both entry paths: the REWRITE_SELECTED_TEXT listener sends
STREAM_START and creates a session, and the context-menu path with
`info.selectionText = " "` sends STREAM_START as well. -/
theorem c5_whitespace_text_not_rejected_counterexample :
    jsTrim " " = "" ∧
    (bgOnRuntimeMessage ⟨.REWRITE_SELECTED_TEXT, { text := some " " }⟩
        (some 1) bgInit).2 = [(1, ⟨.STREAM_START, {}⟩)] ∧
    ((bgOnRuntimeMessage ⟨.REWRITE_SELECTED_TEXT, { text := some " " }⟩
        (some 1) bgInit).1).streams 1 = some false ∧
    (contextMenuClicked true (some 1) " " none none bgInit).2 =
      [(1, ⟨.STREAM_START, {}⟩)] :=
  ⟨by decide, rfl, rfl, rfl⟩

/-- C5 (amended): a rewrite request whose text is the empty string (or
missing) never produces STREAM_START and never creates a session, on both
the REWRITE_SELECTED_TEXT path and the context-menu path; the validation
rejects JS-falsy text only, so whitespace-only non-empty text is not
rejected. -/
theorem c5_empty_string_text_rejected (bg : BgState) (tab : Nat)
    (r1 r2 : Option String)
    (h1 : (jsTrim (r1.getD "")).isEmpty = true)
    (h2 : (jsTrim (r2.getD "")).isEmpty = true) :
    bgOnRuntimeMessage ⟨.REWRITE_SELECTED_TEXT, { text := some "" }⟩
      (some tab) bg = (bg, []) ∧
    bgOnRuntimeMessage ⟨.REWRITE_SELECTED_TEXT, { text := none }⟩
      (some tab) bg = (bg, []) ∧
    contextMenuClicked true (some tab) "" r1 r2 bg = (bg, []) := by
  refine ⟨?_, ?_, ?_⟩
  · simp [bgOnRuntimeMessage, truthyStr, empty_isEmpty]
  · simp [bgOnRuntimeMessage, truthyStr]
  · simp [contextMenuClicked, contextMenuResolveText, empty_isEmpty, h1, h2]

/-- Witness for C5's amended theorem at concrete whitespace-only and
absent query responses. -/
theorem c5_empty_string_text_rejected_witness :
    ((jsTrim ((some "  ").getD "")).isEmpty = true ∧
     (jsTrim ((none : Option String).getD "")).isEmpty = true) ∧
    contextMenuClicked true (some 1) "" (some "  ") none bgInit = (bgInit, []) :=
  ⟨⟨by decide, by decide⟩,
   (c5_empty_string_text_rejected bgInit 1 (some "  ") none
     (by decide) (by decide)).2.2⟩

/-- C6: a STREAM_TOKEN received while the agent is not Streaming is
silently dropped — `appendStreamToken` returns immediately and the whole
agent state is unchanged — and the coordinator does not forward tokens for
a cancelled session. -/
theorem c6_stale_token_dropped (st : AgentState) (token : String)
    (ctx : DomCtx) (bg : BgState) (tab : Nat)
    (hag : st.isStreaming = false) (hbg : cancelledFlag bg tab = true) :
    appendStreamToken token st = st ∧
    (agentOnMessage ⟨.STREAM_TOKEN, { token := some token }⟩ ctx st).1 = st ∧
    runRewriteOnToken tab token bg = [] := by
  refine ⟨by simp [appendStreamToken, hag], ?_, by simp [runRewriteOnToken, hbg]⟩
  by_cases ht : token.isEmpty <;>
    simp [agentOnMessage, truthyStr, appendStreamToken, hag, ht]

/-- Witness for C6: a late token after the concrete stream ended, and a
token for the concrete cancelled session. -/
theorem c6_stale_token_dropped_witness :
    ((endStreaming agStreamingHi).isStreaming = false ∧
     cancelledFlag bgCancelled1 1 = true) ∧
    appendStreamToken "late" (endStreaming agStreamingHi) =
      endStreaming agStreamingHi ∧
    runRewriteOnToken 1 "late" bgCancelled1 = [] :=
  ⟨⟨rfl, rfl⟩,
   (c6_stale_token_dropped (endStreaming agStreamingHi) "late" {}
     bgCancelled1 1 rfl rfl).1,
   (c6_stale_token_dropped (endStreaming agStreamingHi) "late" {}
     bgCancelled1 1 rfl rfl).2.2⟩

/-- C7: while a stream is active, the overlay-background click and the
Escape key (with the card shown, as it always is while streaming) take
exactly the Stop path — `cancelStreaming`, which sends STREAM_CANCEL and
leaves card and overlay visible; with no active stream they dismiss the
card and overlay directly without sending anything. -/
theorem c7_escape_and_overlay_follow_stop_path (st : AgentState) :
    (st.isStreaming = true →
      overlayClick st = cancelStreaming st ∧
      (st.cardVisible = true → escapeKeyDown st = cancelStreaming st) ∧
      (overlayClick st).cardVisible = st.cardVisible ∧
      (overlayClick st).overlayVisible = st.overlayVisible ∧
      (overlayClick st).isStreaming = true ∧
      (overlayClick st).outbox = st.outbox ++ [⟨.STREAM_CANCEL, {}⟩]) ∧
    (st.isStreaming = false →
      (overlayClick st).cardVisible = false ∧
      (overlayClick st).overlayVisible = false ∧
      (overlayClick st).outbox = st.outbox ∧
      (st.cardVisible = true → escapeKeyDown st = overlayClick st)) := by
  constructor
  · intro h
    refine ⟨by simp [overlayClick, hideSuggestionCard, h], ?_, ?_, ?_, ?_, ?_⟩
    · intro hc
      simp [escapeKeyDown, overlayClick, hideSuggestionCard, hc, h]
    · simp [overlayClick, hideSuggestionCard, cancelStreaming, h]
    · simp [overlayClick, hideSuggestionCard, cancelStreaming, h]
    · simp [overlayClick, hideSuggestionCard, cancelStreaming, h]
    · simp [overlayClick, hideSuggestionCard, cancelStreaming, h]
  · intro h
    refine ⟨?_, ?_, ?_, ?_⟩
    · simp [overlayClick, hideSuggestionCard, h]
    · simp [overlayClick, hideSuggestionCard, h]
    · simp [overlayClick, hideSuggestionCard, cancelStreaming, h]
    · intro hc
      simp [escapeKeyDown, overlayClick, hc]

/-- Witness for C7 at the concrete streaming state (card visible). -/
theorem c7_escape_and_overlay_follow_stop_path_witness :
    (agStreamingHi.isStreaming = true ∧ agStreamingHi.cardVisible = true) ∧
    overlayClick agStreamingHi = cancelStreaming agStreamingHi ∧
    escapeKeyDown agStreamingHi = cancelStreaming agStreamingHi :=
  ⟨⟨rfl, rfl⟩,
   ((c7_escape_and_overlay_follow_stop_path agStreamingHi).1 rfl).1,
   ((c7_escape_and_overlay_follow_stop_path agStreamingHi).1 rfl).2.1 rfl⟩

/-- C9: the `finally` block of `runRewrite` always removes the tab's
`activeStreams` entry; every new `runRewrite` installs a fresh
`cancelled = false` entry; and after a cancellation followed by a fresh
start on the same tab, the token, completion and error callbacks of the
new stream are all forwarded, not suppressed. -/
theorem c9_settled_stream_frees_tab_entry (bg : BgState) (tab : Nat)
    (tok err : String) :
    (runRewriteFinally tab bg).streams tab = none ∧
    ((runRewriteStart tab bg).1).streams tab = some false ∧
    runRewriteOnToken tab tok
        ((runRewriteStart tab ((handleStreamCancel tab bg).1)).1) =
      [(tab, ⟨.STREAM_TOKEN, { token := some tok }⟩)] ∧
    runRewriteOnComplete tab
        ((runRewriteStart tab ((handleStreamCancel tab bg).1)).1) =
      [(tab, ⟨.STREAM_END, {}⟩)] ∧
    runRewriteOnError tab err
        ((runRewriteStart tab ((handleStreamCancel tab bg).1)).1) =
      [(tab, ⟨.STREAM_ERROR, { error := some err }⟩)] := by
  refine ⟨?_, ?_, ?_, ?_, ?_⟩ <;>
    simp [runRewriteFinally, runRewriteStart, runRewriteOnToken,
      runRewriteOnComplete, runRewriteOnError, cancelledFlag, handleStreamCancel]

/-- C10: a STREAM_ERROR or SHOW_ERROR whose error payload is the empty
string or missing is ignored entirely: no toast, no `endStreaming`, no
card close — the agent state is returned unchanged with no response. -/
theorem c10_falsy_error_payload_ignored (st : AgentState) (ctx : DomCtx) :
    agentOnMessage ⟨.STREAM_ERROR, { error := some "" }⟩ ctx st = (st, none) ∧
    agentOnMessage ⟨.STREAM_ERROR, {}⟩ ctx st = (st, none) ∧
    agentOnMessage ⟨.SHOW_ERROR, { error := some "" }⟩ ctx st = (st, none) ∧
    agentOnMessage ⟨.SHOW_ERROR, {}⟩ ctx st = (st, none) := by
  refine ⟨?_, ?_, ?_, ?_⟩ <;> simp [agentOnMessage, truthyStr, empty_isEmpty]
